import Mathlib

/-!
# Verification of the cross-platform track verification / enrichment core

Shallow embedding of `api_integrations.py` (classes `SpotifyAPI`,
`SoundCloudAPI`, `YouTubeAPI`, `TrackVerificationService`).

Modelling conventions:

* Python strings are modelled as `List Char`; `str.lower()` is `lowerL`
  (ASCII case mapping, which agrees with Python on the ASCII inputs and
  host markers that all of these functions deal in).
* Each client's network + JSON-shaping block (the body of its `try:`)
  is modelled as an oracle function stored in the client structure.  The
  code guarantees at the method boundary that any exception collapses to
  `None` / `[]`, so the oracle directly returns the shaped record, or
  `none` / `[]` for "no result or any failure".  Missing credentials
  (`if not self.client: return None` etc.) are modelled explicitly with
  an `Option` credential field, `none` standing for a falsy credential
  (absent or empty string).
* Pure string/regex logic (`extract_video_id`, the `track/([a-zA-Z0-9]+)`
  search, the host-marker dispatch in `verify_track_url`) is translated
  directly; `re.search` is leftmost-match scanning, embedded by the
  `scanFirst` combinator.
* To reason about which client methods a call performs ("issues no
  network call", "no retry and no fallback", "with exactly this id"),
  the orchestrator functions also return the list of client-method
  invocations they make, in order (`ApiCall`).
* `enrich_track_data` ends with `track_data.update({...})`, which in
  Python mutates the caller's dict in place and then returns that same
  object.  The embedding therefore returns both the function's return
  value and the state of the caller's record object after the call
  (`EnrichOutcome.ret` / `EnrichOutcome.inputAfter`); in the code these
  are one and the same object.
* All embedded functions are total Lean functions: the "never raises"
  contracts correspond to totality of the embedding.
-/

/-- `str.data` of a literal; Python strings are modelled as `List Char`. -/
def strL (s : String) : List Char := s.data

/-- Python `str.lower()` restricted to ASCII case mapping. -/
def lowerL (l : List Char) : List Char := l.map Char.toLower

/-- Python's substring test `needle in hay` (for `hay`, `needle` strings):
true iff `needle` occurs contiguously in `hay`. -/
def containsSub (hay needle : List Char) : Bool :=
  needle.isPrefixOf hay ||
    match hay with
    | [] => false
    | _ :: t => containsSub t needle

/-- The regex class `[a-zA-Z0-9]` (ASCII letters and digits). -/
def isAlnum (c : Char) : Bool := c.isAlpha || c.isDigit

/-- Does the list start with a `[a-zA-Z0-9]` character?  (`+` in the
regex `track/([a-zA-Z0-9]+)` needs at least one such character.) -/
def alnumHead : List Char → Bool
  | [] => false
  | c :: _ => isAlnum c

/-- The regex class `[0-9A-Za-z_-]` used for YouTube video ids. -/
def vidClass (c : Char) : Bool := isAlnum c || c = '_' || c = '-'

/-- Does the list start with 11 characters of the id class `[0-9A-Za-z_-]`?
This is `{11}` applied to that class. -/
def valid11 (l : List Char) : Bool :=
  (l.take 11).length = 11 && (l.take 11).all vidClass

/-- `re.search` as leftmost-match scanning: try the single-position
matcher `f` at every suffix, leftmost first.  (Like `re.search`, the
position at the very end of the string is also tried; all matchers used
here fail on the empty suffix.) -/
def scanFirst (f : List Char → Option (List Char)) : List Char → Option (List Char)
  | [] => f []
  | c :: cs =>
    match f (c :: cs) with
    | some r => some r
    | none => scanFirst f cs

/-! ## Single-position regex matchers -/

/-- The literal `track/` of the pattern `track/([a-zA-Z0-9]+)`. -/
def trackLit : List Char := ['t', 'r', 'a', 'c', 'k', '/']

/-- One position of `re.search(r'track/([a-zA-Z0-9]+)', url)`: the
literal `track/` followed by at least one `[a-zA-Z0-9]` character; the
group is the maximal (greedy `+`) alphanumeric run. -/
def trackPrefixId : List Char → Option (List Char)
  | 't' :: 'r' :: 'a' :: 'c' :: 'k' :: '/' :: rest =>
    if alnumHead rest then some (rest.takeWhile isAlnum) else none
  | _ => none

/-- `re.search(r'track/([a-zA-Z0-9]+)', url)` — leftmost match. -/
def searchTrackId (u : List Char) : Option (List Char) :=
  scanFirst trackPrefixId u

/-- One position of the first YouTube pattern
`(?:v=|\/)([0-9A-Za-z_-]{11}).*`: either the literal `v=` or a `/`,
followed by exactly 11 id-class characters (the trailing `.*` never
constrains the match). -/
def vEqOrSlashAt : List Char → Option (List Char)
  | 'v' :: '=' :: rest => if valid11 rest then some (rest.take 11) else none
  | '/' :: rest => if valid11 rest then some (rest.take 11) else none
  | _ => none

/-- One position of the second YouTube pattern
`(?:embed\/)([0-9A-Za-z_-]{11})`. -/
def embedAt : List Char → Option (List Char)
  | 'e' :: 'm' :: 'b' :: 'e' :: 'd' :: '/' :: rest =>
    if valid11 rest then some (rest.take 11) else none
  | _ => none

/-- One position of the third YouTube pattern
`(?:v\/)([0-9A-Za-z_-]{11})`. -/
def vSlashAt : List Char → Option (List Char)
  | 'v' :: '/' :: rest => if valid11 rest then some (rest.take 11) else none
  | _ => none

/-- `YouTubeAPI.extract_video_id`: the three patterns are tried in
order over the whole URL (`re.search` each), first match wins. -/
def extract_video_id (u : List Char) : Option (List Char) :=
  match scanFirst vEqOrSlashAt u with
  | some r => some r
  | none =>
    match scanFirst embedAt u with
    | some r => some r
    | none => scanFirst vSlashAt u

/-! ## Normalized per-platform track shapes

Fields are exactly the keys of the dicts the client methods build.
Numeric JSON fields are modelled as `Int`, text fields as `List Char`.
-/

/-- Shape returned by `SpotifyAPI.search_track`. -/
structure SpotifyTrack where
  id : List Char
  name : List Char
  artist : List Char
  url : List Char
  popularity : Int
  duration_ms : Int
  explicit : Bool
  preview_url : List Char
deriving DecidableEq

/-- Shape returned by `SpotifyAPI.get_track_details` (the search shape
plus album, release date and the audio-features payload, the latter
modelled as an opaque key/value list — its internal structure is
irrelevant here). -/
structure SpotifyTrackDetails where
  id : List Char
  name : List Char
  artist : List Char
  album : List Char
  url : List Char
  popularity : Int
  duration_ms : Int
  explicit : Bool
  preview_url : List Char
  release_date : List Char
  audio_features : List (List Char × Int)
deriving DecidableEq

/-- Shape built by `SoundCloudAPI.search_tracks` / `get_track_by_url`. -/
structure SCTrack where
  id : Int
  title : List Char
  artist : List Char
  url : List Char
  duration : Int
  playback_count : Int
  likes_count : Int
  comment_count : Int
  created_at : List Char
  genre : List Char
  description : List Char
  artwork_url : List Char
deriving DecidableEq

/-- Shape built by `YouTubeAPI.search_videos` / `get_video_by_url`. -/
structure YTVideo where
  id : List Char
  title : List Char
  channel : List Char
  url : List Char
  description : List Char
  published_at : List Char
  thumbnail : List Char
  view_count : Int
  like_count : Int
  comment_count : Int
  duration : List Char
deriving DecidableEq

/-! ## Platform clients -/

/-- Oracles for a configured `spotipy` client: the network + shaping
bodies of `search_track` (search query, limit) and `get_track_details`
(track id), returning the shaped dict or `none` on no-match/any failure. -/
structure SpotifyClient where
  search : List Char → Nat → Option SpotifyTrack
  track_details : List Char → Option SpotifyTrackDetails

/-- `SpotifyAPI`: `client` is `none` when credentials are missing or
client construction failed. -/
structure SpotifyAPI where
  client : Option SpotifyClient

/-- `SpotifyAPI.search_track`: `if not self.client: return None`, else
search with query `f"artist:{artist} track:{title}"` and `limit=10`. -/
def SpotifyAPI.search_track (api : SpotifyAPI) (artist title : List Char) :
    Option SpotifyTrack :=
  match api.client with
  | none => none
  | some c => c.search (strL "artist:" ++ artist ++ strL " track:" ++ title) 10

/-- `SpotifyAPI.get_track_details`: `if not self.client: return None`,
else detail lookup by id. -/
def SpotifyAPI.get_track_details (api : SpotifyAPI) (track_id : List Char) :
    Option SpotifyTrackDetails :=
  match api.client with
  | none => none
  | some c => c.track_details track_id

/-- `SoundCloudAPI`: `client_id` is `none` when the configured id is
falsy (absent or empty); the two oracles model the network + shaping
bodies of `search_tracks` and `get_track_by_url`. -/
structure SoundCloudAPI where
  client_id : Option (List Char)
  search_oracle : List Char → Nat → List SCTrack
  resolve_oracle : List Char → Option SCTrack

/-- `SoundCloudAPI.search_tracks`: `if not self.client_id: return []`. -/
def SoundCloudAPI.search_tracks (api : SoundCloudAPI) (q : List Char) (limit : Nat) :
    List SCTrack :=
  match api.client_id with
  | none => []
  | some _ => api.search_oracle q limit

/-- `SoundCloudAPI.get_track_by_url`: `if not self.client_id: return None`,
else the `/resolve` endpoint. -/
def SoundCloudAPI.get_track_by_url (api : SoundCloudAPI) (u : List Char) :
    Option SCTrack :=
  match api.client_id with
  | none => none
  | some _ => api.resolve_oracle u

/-- `YouTubeAPI`: `api_key` is `none` when the configured key is falsy;
`search_oracle` models the network + shaping body of `search_videos`,
`video_oracle` the statistics + snippet lookups of `get_video_by_url`
performed after id extraction. -/
structure YouTubeAPI where
  api_key : Option (List Char)
  search_oracle : List Char → Nat → List YTVideo
  video_oracle : List Char → Option YTVideo

/-- `YouTubeAPI.search_videos`: `if not self.api_key: return []`. -/
def YouTubeAPI.search_videos (api : YouTubeAPI) (q : List Char) (limit : Nat) :
    List YTVideo :=
  match api.api_key with
  | none => []
  | some _ => api.search_oracle q limit

/-- `YouTubeAPI.get_video_by_url`: extract the video id first (`None` if
no pattern matches); without an `api_key`, `get_video_details` returns
`{}` and the body then returns `None`; otherwise the detail/snippet
lookup for the extracted id. -/
def YouTubeAPI.get_video_by_url (api : YouTubeAPI) (u : List Char) :
    Option YTVideo :=
  match extract_video_id u with
  | none => none
  | some vid =>
    match api.api_key with
    | none => none
    | some _ => api.video_oracle vid

/-! ## The verification / enrichment service -/

/-- The three platforms of `verify_track_url`'s dispatch. -/
inductive Platform where
  | spotify
  | soundcloud
  | youtube
deriving DecidableEq

/-- The `data` payload of a verification result (heterogeneous per
platform, as in the Python dicts). -/
inductive VData where
  | spotify (d : SpotifyTrackDetails)
  | soundcloud (d : SCTrack)
  | youtube (d : YTVideo)
deriving DecidableEq

/-- The dict `{'platform': ..., 'verified': True, 'data': ...}` built by
the `verify_*_url` methods. -/
structure VerificationResult where
  platform : Platform
  verified : Bool
  data : VData
deriving DecidableEq

/-- A client-method invocation performed by the service (used to state
which lookups/searches a call issues, in order). -/
inductive ApiCall where
  | spotifySearch (artist title : List Char)
  | spotifyDetails (track_id : List Char)
  | soundcloudSearch (q : List Char) (limit : Nat)
  | soundcloudResolve (u : List Char)
  | youtubeSearch (q : List Char) (limit : Nat)
  | youtubeByUrl (u : List Char)
deriving DecidableEq

/-- `TrackVerificationService`: one client per platform. -/
structure TrackVerificationService where
  spotify : SpotifyAPI
  soundcloud : SoundCloudAPI
  youtube : YouTubeAPI

/-- `TrackVerificationService.verify_spotify_url`: extract the track id
via `re.search(r'track/([a-zA-Z0-9]+)', url)`; `None` if no match, else
the Spotify detail lookup, wrapped as verified on success.  The second
component records the client-method invocations made. -/
def TrackVerificationService.verify_spotify_url
    (svc : TrackVerificationService) (u : List Char) :
    Option VerificationResult × List ApiCall :=
  match searchTrackId u with
  | none => (none, [])
  | some track_id =>
    (match svc.spotify.get_track_details track_id with
     | some d => some ⟨Platform.spotify, true, VData.spotify d⟩
     | none => none,
     [ApiCall.spotifyDetails track_id])

/-- `TrackVerificationService.verify_soundcloud_url`: direct URL
resolution by the SoundCloud client, wrapped as verified on success. -/
def TrackVerificationService.verify_soundcloud_url
    (svc : TrackVerificationService) (u : List Char) :
    Option VerificationResult × List ApiCall :=
  (match svc.soundcloud.get_track_by_url u with
   | some d => some ⟨Platform.soundcloud, true, VData.soundcloud d⟩
   | none => none,
   [ApiCall.soundcloudResolve u])

/-- `TrackVerificationService.verify_youtube_url`: URL lookup by the
YouTube client, wrapped as verified on success. -/
def TrackVerificationService.verify_youtube_url
    (svc : TrackVerificationService) (u : List Char) :
    Option VerificationResult × List ApiCall :=
  (match svc.youtube.get_video_by_url u with
   | some d => some ⟨Platform.youtube, true, VData.youtube d⟩
   | none => none,
   [ApiCall.youtubeByUrl u])

/-- The host-marker classification chain of `verify_track_url` (its
`if 'spotify.com' in url: ... elif ... else: return None`), applied to
an already-lowercased URL. -/
def classifyL (u : List Char) : Option Platform :=
  if containsSub u (strL "spotify.com") then some Platform.spotify
  else if containsSub u (strL "soundcloud.com") then some Platform.soundcloud
  else if containsSub u (strL "youtube.com") || containsSub u (strL "youtu.be") then
    some Platform.youtube
  else none

/-- `TrackVerificationService.verify_track_url`: `url = url.lower()`,
then the marker chain dispatches to the per-platform verifier — note
that the *lowercased* URL is what gets passed on. -/
def TrackVerificationService.verify_track_url
    (svc : TrackVerificationService) (url : List Char) :
    Option VerificationResult × List ApiCall :=
  let u := lowerL url
  if containsSub u (strL "spotify.com") then svc.verify_spotify_url u
  else if containsSub u (strL "soundcloud.com") then svc.verify_soundcloud_url u
  else if containsSub u (strL "youtube.com") || containsSub u (strL "youtu.be") then
    svc.verify_youtube_url u
  else (none, [])

/-! ## Cross-platform search and enrichment -/

/-- The dict `{'spotify': ..., 'soundcloud': [...], 'youtube': [...]}`
built by `cross_platform_search` (insertion order as written). -/
structure PlatformData where
  spotify : Option SpotifyTrack
  soundcloud : List SCTrack
  youtube : List YTVideo
deriving DecidableEq

/-- `TrackVerificationService.cross_platform_search`: one search per
platform, queries `f"{artist} {title}"` with limit 5 for SoundCloud and
YouTube.  (`results['spotify']` is only assigned when the Spotify result
is truthy, which is the same as storing the optional result directly,
since `search_track` returns `None` or a non-empty dict.) -/
def TrackVerificationService.cross_platform_search
    (svc : TrackVerificationService) (artist title : List Char) :
    PlatformData × List ApiCall :=
  let spotify_result := svc.spotify.search_track artist title
  let q := artist ++ [' '] ++ title
  let soundcloud_results := svc.soundcloud.search_tracks q 5
  let youtube_results := svc.youtube.search_videos q 5
  (⟨spotify_result, soundcloud_results, youtube_results⟩,
   [ApiCall.spotifySearch artist title, ApiCall.soundcloudSearch q 5,
    ApiCall.youtubeSearch q 5])

/-- The three aggregates computed by `enrich_track_data`'s loop. -/
structure Aggregates where
  platform_count : Nat
  total_plays : Int
  total_likes : Int
deriving DecidableEq

/-- The aggregation loop of `enrich_track_data`, iterating the platform
dict in insertion order (spotify, soundcloud, youtube).  Spotify (`None`
or a non-empty dict, always a dict) contributes only to the count; a
non-empty SoundCloud/YouTube list contributes its first element's
play/view and like counts (`data[0].get(...)`; those keys are always
present in the shaped dicts). -/
def aggregate (pd : PlatformData) : Aggregates :=
  let spotifyCount : Nat :=
    match pd.spotify with
    | some _ => 1
    | none => 0
  let scStats : Nat × Int × Int :=
    match pd.soundcloud with
    | [] => (0, 0, 0)
    | t :: _ => (1, t.playback_count, t.likes_count)
  let ytStats : Nat × Int × Int :=
    match pd.youtube with
    | [] => (0, 0, 0)
    | v :: _ => (1, v.view_count, v.like_count)
  ⟨spotifyCount + scStats.1 + ytStats.1,
   scStats.2.1 + ytStats.2.1,
   scStats.2.2 + ytStats.2.2⟩

/-- The caller's track dict as seen by `enrich_track_data`:
`artist`/`title` as read by `.get('artist', '')` (so an absent key and
an empty string coincide, as they do for the code), the five keys the
final `update` writes (optional: absent before first enrichment), and
all remaining keys, which `update` never touches. -/
structure TrackRecord where
  artist : List Char
  title : List Char
  platform_data : Option PlatformData
  platform_count : Option Nat
  total_plays : Option Int
  total_likes : Option Int
  enriched_at : Option Int
  extra : List (List Char × List Char)
deriving DecidableEq

/-- Outcome of one `enrich_track_data` call: the returned record, the
state of the caller's record object after the call (`dict.update`
mutates in place and the function returns that same object), and the
client-method invocations made. -/
structure EnrichOutcome where
  ret : TrackRecord
  inputAfter : TrackRecord
  calls : List ApiCall
deriving DecidableEq

/-- `TrackVerificationService.enrich_track_data`: no-op (same object
returned, nothing searched) when artist or title is falsy; otherwise
search all platforms, aggregate, and `track_data.update({...})` — which
mutates the caller's dict in place and returns it.  `time.time()` is
modelled as the explicit timestamp parameter `now`. -/
def TrackVerificationService.enrich_track_data
    (svc : TrackVerificationService) (now : Int) (td : TrackRecord) :
    EnrichOutcome :=
  if td.artist.isEmpty || td.title.isEmpty then ⟨td, td, []⟩
  else
    let pdc := svc.cross_platform_search td.artist td.title
    let ag := aggregate pdc.1
    let td2 : TrackRecord :=
      { td with
        platform_data := some pdc.1
        platform_count := some ag.platform_count
        total_plays := some ag.total_plays
        total_likes := some ag.total_likes
        enriched_at := some now }
    ⟨td2, td2, pdc.2⟩

/-! ## Spec-side definitions (for refinement-style claims)

These follow the specification's words, to be compared with the
definitions translated from the source.
-/

/-- The spec's fixed, ordered marker table: catalog-A marker, catalog-B
marker, then the two catalog-C host forms. -/
def markers : List (List Char × Platform) :=
  [(strL "spotify.com", Platform.spotify),
   (strL "soundcloud.com", Platform.soundcloud),
   (strL "youtube.com", Platform.youtube),
   (strL "youtu.be", Platform.youtube)]

/-- Modelled from the spec's words: "first matching marker determines
the platform … returns null when no marker matches". -/
def firstMatchMarker (u : List Char) : Option Platform :=
  (markers.find? (fun m => containsSub u m.1)).map Prod.snd

/-- Popularity metric of the first catalog-B result (0 when empty). -/
def firstPlaybackCount : List SCTrack → Int
  | [] => 0
  | t :: _ => t.playback_count

/-- Secondary metric of the first catalog-B result (0 when empty). -/
def firstLikesCount : List SCTrack → Int
  | [] => 0
  | t :: _ => t.likes_count

/-- Popularity metric of the first catalog-C result (0 when empty). -/
def firstViewCount : List YTVideo → Int
  | [] => 0
  | v :: _ => v.view_count

/-- Secondary metric of the first catalog-C result (0 when empty). -/
def firstLikeCount : List YTVideo → Int
  | [] => 0
  | v :: _ => v.like_count

/-- One position of the query-parameter-only pattern `v=` followed by an
11-character id — the first URL shape as the claim describes it. -/
def vEqAt : List Char → Option (List Char)
  | 'v' :: '=' :: rest => if valid11 rest then some (rest.take 11) else none
  | _ => none

/-- Modelled from the claim's words for C9: try the query-parameter
form, then the `/embed/` form, then the `/v/` form, first match wins. -/
def claimedExtractVideoId (u : List Char) : Option (List Char) :=
  match scanFirst vEqAt u with
  | some r => some r
  | none =>
    match scanFirst embedAt u with
    | some r => some r
    | none => scanFirst vSlashAt u

/-- The client detail-lookup invocation that `verify_track_url` performs
for a URL classified to platform `p` (none if, for catalog A, id
extraction fails and no lookup is dispatched). -/
def dispatchCall (p : Platform) (u : List Char) : Option ApiCall :=
  match p with
  | Platform.spotify => (searchTrackId u).map (fun track_id => ApiCall.spotifyDetails track_id)
  | Platform.soundcloud => some (ApiCall.soundcloudResolve u)
  | Platform.youtube => some (ApiCall.youtubeByUrl u)

/-- The platform client's answer to a given detail-lookup invocation
(search invocations are not detail lookups and yield `none`). -/
def callResult (svc : TrackVerificationService) : ApiCall → Option VData
  | ApiCall.spotifyDetails track_id =>
    (svc.spotify.get_track_details track_id).map VData.spotify
  | ApiCall.soundcloudResolve u =>
    (svc.soundcloud.get_track_by_url u).map VData.soundcloud
  | ApiCall.youtubeByUrl u =>
    (svc.youtube.get_video_by_url u).map VData.youtube
  | _ => none

/-! ## Helper lemmas -/

/-- Unfolding one scan step. -/
theorem scanFirst_cons (f : List Char → Option (List Char)) (c : Char) (cs : List Char) :
    scanFirst f (c :: cs) =
      match f (c :: cs) with
      | some r => some r
      | none => scanFirst f cs := rfl

/-- A successful scan means the matcher succeeds at some split of the
input. -/
theorem scanFirst_some_decomp (f : List Char → Option (List Char)) (u r : List Char)
    (h : scanFirst f u = some r) : ∃ a b, u = a ++ b ∧ f b = some r := by
  induction u with
  | nil => exact ⟨[], [], rfl, h⟩
  | cons c cs ih =>
    rw [scanFirst_cons] at h
    cases hf : f (c :: cs) with
    | some r2 =>
      rw [hf] at h
      exact ⟨[], c :: cs, rfl, hf.trans h⟩
    | none =>
      rw [hf] at h
      obtain ⟨a, b, hab, hfb⟩ := ih h
      exact ⟨c :: a, b, by rw [hab, List.cons_append], hfb⟩

/-- If the matcher succeeds on some suffix, the scan succeeds. -/
theorem scanFirst_ne_none (f : List Char → Option (List Char)) (a b r : List Char)
    (h : f b = some r) : scanFirst f (a ++ b) ≠ none := by
  induction a with
  | nil =>
    cases b with
    | nil => simp only [List.nil_append, scanFirst, h]; simp
    | cons c cs => rw [List.nil_append, scanFirst_cons, h]; simp
  | cons c a ih =>
    rw [List.cons_append, scanFirst_cons]
    cases hf : f (c :: (a ++ b)) with
    | some r2 => simp
    | none => simpa using ih

/-- Inversion for a successful `embedAt` position. -/
theorem embedAt_some (b r : List Char) (h : embedAt b = some r) :
    ∃ rest, b = 'e' :: 'm' :: 'b' :: 'e' :: 'd' :: '/' :: rest
      ∧ valid11 rest = true ∧ r = rest.take 11 := by
  unfold embedAt at h
  split at h
  next rest =>
    split at h
    next hv => exact ⟨rest, rfl, hv, (Option.some.inj h).symm⟩
    next => cases h
  next => cases h

/-- Inversion for a successful `vSlashAt` position. -/
theorem vSlashAt_some (b r : List Char) (h : vSlashAt b = some r) :
    ∃ rest, b = 'v' :: '/' :: rest ∧ valid11 rest = true ∧ r = rest.take 11 := by
  unfold vSlashAt at h
  split at h
  next rest =>
    split at h
    next hv => exact ⟨rest, rfl, hv, (Option.some.inj h).symm⟩
    next => cases h
  next => cases h

/-- `trackPrefixId` at the start of `track/<post>`. -/
theorem trackPrefixId_lit (post : List Char) (h : alnumHead post = true) :
    trackPrefixId (trackLit ++ post) = some (post.takeWhile isAlnum) := by
  show trackPrefixId ('t' :: 'r' :: 'a' :: 'c' :: 'k' :: '/' :: post) = _
  simp [trackPrefixId, h]

/-- Leftmost-match characterization of the `track/([a-zA-Z0-9]+)`
search: if no position before `pre.length` matches, the match at
`pre.length` is returned. -/
theorem searchTrackId_first (pre post : List Char)
    (hpost : alnumHead post = true)
    (hmin : ∀ i, i < pre.length → trackPrefixId ((pre ++ (trackLit ++ post)).drop i) = none) :
    searchTrackId (pre ++ (trackLit ++ post)) = some (post.takeWhile isAlnum) := by
  induction pre with
  | nil =>
    rw [List.nil_append]
    show scanFirst trackPrefixId (trackLit ++ post) = _
    rw [show trackLit ++ post = 't' :: 'r' :: 'a' :: 'c' :: 'k' :: '/' :: post from rfl,
      scanFirst_cons]
    rw [show ('t' :: 'r' :: 'a' :: 'c' :: 'k' :: '/' :: post) = trackLit ++ post from rfl,
      trackPrefixId_lit post hpost]
  | cons c pre ih =>
    have h0 := hmin 0 (by simp)
    rw [List.drop_zero, List.cons_append] at h0
    rw [List.cons_append]
    show scanFirst trackPrefixId (c :: (pre ++ (trackLit ++ post))) = _
    rw [scanFirst_cons, h0]
    exact ih (fun i hi => by
      have h1 := hmin (i + 1) (by simpa using Nat.succ_lt_succ hi)
      rwa [List.cons_append, List.drop_succ_cons] at h1)

/-- `verify_track_url` is classification followed by dispatch. -/
theorem verify_dispatch (svc : TrackVerificationService) (url : List Char) :
    svc.verify_track_url url =
      match classifyL (lowerL url) with
      | some Platform.spotify => svc.verify_spotify_url (lowerL url)
      | some Platform.soundcloud => svc.verify_soundcloud_url (lowerL url)
      | some Platform.youtube => svc.verify_youtube_url (lowerL url)
      | none => (none, []) := by
  simp only [TrackVerificationService.verify_track_url, classifyL]
  split_ifs <;> rfl

/-! ## Witness fixtures -/

/-- A service with all three platforms unconfigured (no credentials). -/
def svc0 : TrackVerificationService :=
  ⟨⟨none⟩, ⟨none, fun _ _ => [], fun _ => none⟩, ⟨none, fun _ _ => [], fun _ => none⟩⟩

/-- A not-yet-enriched record with non-empty artist and title. -/
def tdEx : TrackRecord := ⟨strL "a", strL "x", none, none, none, none, none, []⟩

/-- A record with an empty artist field. -/
def tdNoArtist : TrackRecord :=
  ⟨strL "", strL "X", none, none, none, none, none, [(strL "id", strL "7")]⟩

/-- A record with an empty title field. -/
def tdNoTitle : TrackRecord :=
  ⟨strL "A", strL "", none, none, none, none, none, [(strL "id", strL "8")]⟩

/-- A sample catalog-A search result with popularity score 10. -/
def spotifySampleA : SpotifyTrack :=
  ⟨strL "s1", strL "Song", strL "Artist", strL "u", 10, 1000, false, strL ""⟩

/-- The same catalog-A search result with popularity score 99. -/
def spotifySampleB : SpotifyTrack :=
  ⟨strL "s1", strL "Song", strL "Artist", strL "u", 99, 1000, false, strL ""⟩

/-- A sample catalog-B track (500 plays, 20 likes). -/
def scSample : SCTrack :=
  ⟨1, strL "Song", strL "Artist", strL "u", 1000, 500, 20, 3, strL "", strL "", strL "", strL ""⟩

/-- A sample catalog-C video (700 views, 30 likes). -/
def ytSample : YTVideo :=
  ⟨strL "v", strL "Song", strL "Chan", strL "u", strL "", strL "", strL "", 700, 30, 4, strL ""⟩

/-! ## The claims -/

/-- Claim C1 (the code contradicts it): `verify_track_url` reassigns
`url = url.lower()` before dispatch, so the id handed to the Spotify
detail lookup is extracted from the lowercased URL, not the original
one; on the claim's example URL the lookup is invoked with
`abc12345xyz`, not `abc12345XYZ`.  (Spotify ids are case-sensitive, so
this lowercasing is a slip in the code; the spec states extraction from
the original, unmodified URL.) -/
theorem c1_spotify_id_is_lowercased (svc : TrackVerificationService) :
    (svc.verify_track_url (strL "https://open.spotify.com/track/abc12345XYZ")).2
      = [ApiCall.spotifyDetails (strL "abc12345xyz")]
    ∧ strL "abc12345xyz" ≠ strL "abc12345XYZ" := by
  refine ⟨rfl, by decide⟩

/-- Claim C8: URL classification is case-insensitive first-match
substring search against the ordered marker table (catalog A, then B,
then the two catalog-C host forms), `none` when no marker matches; a
URL containing both the catalog-A and the catalog-B marker is
classified as catalog A. -/
theorem c8_classification_first_match :
    (∀ u : List Char, classifyL (lowerL u) = firstMatchMarker (lowerL u))
    ∧ classifyL (lowerL (strL "https://SPOTIFY.com/x?from=soundcloud.com"))
        = some Platform.spotify := by
  constructor
  · intro u
    simp only [classifyL, firstMatchMarker, markers, List.find?]
    cases h1 : containsSub (lowerL u) (strL "spotify.com") <;>
      cases h2 : containsSub (lowerL u) (strL "soundcloud.com") <;>
        cases h3 : containsSub (lowerL u) (strL "youtube.com") <;>
          cases h4 : containsSub (lowerL u) (strL "youtu.be") <;>
            simp [h1, h2, h3, h4]
  · decide

/-- Claim C6: a URL whose lowercased form contains none of the four
host markers is rejected by `verify_track_url` with result `none` and
an empty invocation list — no client method is called. -/
theorem c6_unmatched_url_no_call (svc : TrackVerificationService) (url : List Char)
    (h1 : containsSub (lowerL url) (strL "spotify.com") = false)
    (h2 : containsSub (lowerL url) (strL "soundcloud.com") = false)
    (h3 : containsSub (lowerL url) (strL "youtube.com") = false)
    (h4 : containsSub (lowerL url) (strL "youtu.be") = false) :
    svc.verify_track_url url = (none, []) := by
  simp [TrackVerificationService.verify_track_url, h1, h2, h3, h4]

/-- Witness for C6: a URL with a `track/` segment but no platform
marker is rejected without any client call. -/
theorem c6_unmatched_url_no_call_witness :
    svc0.verify_track_url (strL "https://example.org/track/abc123") = (none, []) :=
  c6_unmatched_url_no_call svc0 (strL "https://example.org/track/abc123")
    (by decide) (by decide) (by decide) (by decide)

/-- Claim C5: with all three platforms unconfigured,
`cross_platform_search` yields empty per-platform slots and the
aggregation yields zero platform count, plays and likes; the functions
are total, so no exception can escape. -/
theorem c5_unconfigured_all_empty (svc : TrackVerificationService)
    (artist title : List Char)
    (h1 : svc.spotify.client = none)
    (h2 : svc.soundcloud.client_id = none)
    (h3 : svc.youtube.api_key = none) :
    (svc.cross_platform_search artist title).1 = ⟨none, [], []⟩
    ∧ aggregate (svc.cross_platform_search artist title).1 = ⟨0, 0, 0⟩ := by
  have hpd : (svc.cross_platform_search artist title).1 = ⟨none, [], []⟩ := by
    simp [TrackVerificationService.cross_platform_search, SpotifyAPI.search_track,
      SoundCloudAPI.search_tracks, YouTubeAPI.search_videos, h1, h2, h3]
  exact ⟨hpd, by rw [hpd]; decide⟩

/-- Witness for C5 at the unconfigured service. -/
theorem c5_unconfigured_all_empty_witness :
    (svc0.cross_platform_search (strL "Artist") (strL "Song")).1 = ⟨none, [], []⟩
    ∧ aggregate (svc0.cross_platform_search (strL "Artist") (strL "Song")).1
        = ⟨0, 0, 0⟩ :=
  c5_unconfigured_all_empty svc0 (strL "Artist") (strL "Song") rfl rfl rfl

/-- Claim C4: when the record's artist or title field is empty (or
missing — `.get('artist', '')`), enrichment is a no-op: the same record
is returned, the caller's record is untouched, and no platform client
method is invoked. -/
theorem c4_empty_fields_noop (svc : TrackVerificationService) (now : Int)
    (td : TrackRecord) (h : td.artist = [] ∨ td.title = []) :
    svc.enrich_track_data now td = ⟨td, td, []⟩ := by
  rw [TrackVerificationService.enrich_track_data]
  rcases h with h | h <;> simp [h]

/-- Witness for C4: both spec examples, `{artist: "", title: "X"}` and
`{artist: "A", title: ""}`. -/
theorem c4_empty_fields_noop_witness :
    svc0.enrich_track_data 0 tdNoArtist = ⟨tdNoArtist, tdNoArtist, []⟩
    ∧ svc0.enrich_track_data 0 tdNoTitle = ⟨tdNoTitle, tdNoTitle, []⟩ :=
  ⟨c4_empty_fields_noop svc0 0 tdNoArtist (Or.inl rfl),
   c4_empty_fields_noop svc0 0 tdNoTitle (Or.inr rfl)⟩

/-- Claim C2: the aggregated totals depend only on the catalog-B and
catalog-C result lists — two aggregations over equal B/C lists agree no
matter what catalog A returned — and each total is the sum of the
respective metrics of the first B result and the first C result only. -/
theorem c2_totals_from_b_and_c_only (pd qd : PlatformData)
    (hsc : pd.soundcloud = qd.soundcloud) (hyt : pd.youtube = qd.youtube) :
    ((aggregate pd).total_plays = (aggregate qd).total_plays
      ∧ (aggregate pd).total_likes = (aggregate qd).total_likes)
    ∧ (aggregate pd).total_plays
        = firstPlaybackCount pd.soundcloud + firstViewCount pd.youtube
    ∧ (aggregate pd).total_likes
        = firstLikesCount pd.soundcloud + firstLikeCount pd.youtube := by
  obtain ⟨sp, sc, yt⟩ := pd
  obtain ⟨sq, sc2, yt2⟩ := qd
  simp only at hsc hyt
  subst hsc
  subst hyt
  refine ⟨⟨?_, ?_⟩, ?_, ?_⟩ <;>
    cases sc <;> cases yt <;>
      simp [aggregate, firstPlaybackCount, firstViewCount, firstLikesCount,
        firstLikeCount]

/-- Witness for C2: changing catalog A's popularity score from 10 to 99
leaves the totals unchanged. -/
theorem c2_totals_from_b_and_c_only_witness :
    (aggregate ⟨some spotifySampleA, [scSample], [ytSample]⟩).total_plays
      = (aggregate ⟨some spotifySampleB, [scSample], [ytSample]⟩).total_plays :=
  (c2_totals_from_b_and_c_only ⟨some spotifySampleA, [scSample], [ytSample]⟩
    ⟨some spotifySampleB, [scSample], [ytSample]⟩ rfl rfl).1.1

/-- Counterexample to claim C3: enrichment does mutate the caller's
record.  On a record with non-empty artist and title (even against a
fully unconfigured service), `track_data.update({...})` changes the
object the caller passed in: its state after the call differs from its
state before. -/
theorem c3_input_mutated_counterexample :
    (svc0.enrich_track_data 0 tdEx).inputAfter ≠ tdEx := by decide

/-- Claim C3 as amended: `enrich_track_data` builds the enriched record
by updating the caller's record in place and returns that same object —
after a call with non-empty artist and title, the caller's record and
the returned record coincide; the update preserves `artist`, `title`
and every other pre-existing key and sets exactly `platform_data`,
`platform_count`, `total_plays`, `total_likes` and `enriched_at`. -/
theorem c3_enrich_updates_in_place (svc : TrackVerificationService) (now : Int)
    (td : TrackRecord) (ha : td.artist ≠ []) (ht : td.title ≠ []) :
    (svc.enrich_track_data now td).inputAfter = (svc.enrich_track_data now td).ret
    ∧ (svc.enrich_track_data now td).ret =
        { td with
          platform_data := some (svc.cross_platform_search td.artist td.title).1
          platform_count :=
            some (aggregate (svc.cross_platform_search td.artist td.title).1).platform_count
          total_plays :=
            some (aggregate (svc.cross_platform_search td.artist td.title).1).total_plays
          total_likes :=
            some (aggregate (svc.cross_platform_search td.artist td.title).1).total_likes
          enriched_at := some now } := by
  have hae : td.artist.isEmpty = false := by
    cases h : td.artist with
    | nil => exact absurd h ha
    | cons c cs => rfl
  have hte : td.title.isEmpty = false := by
    cases h : td.title with
    | nil => exact absurd h ht
    | cons c cs => rfl
  rw [TrackVerificationService.enrich_track_data]
  rw [hae, hte]
  exact ⟨rfl, rfl⟩

/-- Witness for the amended C3: on a concrete record the caller's
record after the call is exactly the returned enriched record. -/
theorem c3_enrich_updates_in_place_witness :
    (svc0.enrich_track_data 0 tdEx).inputAfter = (svc0.enrich_track_data 0 tdEx).ret :=
  (c3_enrich_updates_in_place svc0 0 tdEx (by decide) (by decide)).1

/-- Claim C7: once a URL is classified and the detail lookup for its
platform is dispatched, exactly that one client invocation is made (no
retry, no fallback to another platform); the overall result is `none`
precisely when the client answers `none`, and a client answer `d` is
wrapped as `{platform, verified: true, data: d}`. -/
theorem c7_null_iff_client_null (svc : TrackVerificationService)
    (url : List Char) (p : Platform) (c : ApiCall)
    (hp : classifyL (lowerL url) = some p)
    (hd : dispatchCall p (lowerL url) = some c) :
    (svc.verify_track_url url).2 = [c]
    ∧ ((svc.verify_track_url url).1 = none ↔ callResult svc c = none)
    ∧ ∀ d, callResult svc c = some d →
        (svc.verify_track_url url).1 = some ⟨p, true, d⟩ := by
  cases p with
  | spotify =>
    have hv : svc.verify_track_url url = svc.verify_spotify_url (lowerL url) := by
      rw [verify_dispatch, hp]
    rw [dispatchCall] at hd
    rw [Option.map_eq_some'] at hd
    obtain ⟨track_id, hid, rfl⟩ := hd
    have hbody : svc.verify_spotify_url (lowerL url) =
        (match svc.spotify.get_track_details track_id with
         | some d => some ⟨Platform.spotify, true, VData.spotify d⟩
         | none => none,
         [ApiCall.spotifyDetails track_id]) := by
      rw [TrackVerificationService.verify_spotify_url, hid]
    rw [hv, hbody]
    cases hdet : svc.spotify.get_track_details track_id with
    | none =>
      refine ⟨rfl, by simp [callResult, hdet], ?_⟩
      intro d hcr
      simp [callResult, hdet] at hcr
    | some t =>
      refine ⟨rfl, by simp [callResult, hdet], ?_⟩
      intro d hcr
      simp only [callResult, hdet, Option.map_some', Option.some.injEq] at hcr
      subst hcr
      rfl
  | soundcloud =>
    have hv : svc.verify_track_url url = svc.verify_soundcloud_url (lowerL url) := by
      rw [verify_dispatch, hp]
    rw [dispatchCall] at hd
    cases hd
    rw [hv, TrackVerificationService.verify_soundcloud_url]
    cases hres : svc.soundcloud.get_track_by_url (lowerL url) with
    | none =>
      refine ⟨rfl, by simp [callResult, hres], ?_⟩
      intro d hcr
      simp [callResult, hres] at hcr
    | some t =>
      refine ⟨rfl, by simp [callResult, hres], ?_⟩
      intro d hcr
      simp only [callResult, hres, Option.map_some', Option.some.injEq] at hcr
      subst hcr
      rfl
  | youtube =>
    have hv : svc.verify_track_url url = svc.verify_youtube_url (lowerL url) := by
      rw [verify_dispatch, hp]
    rw [dispatchCall] at hd
    cases hd
    rw [hv, TrackVerificationService.verify_youtube_url]
    cases hres : svc.youtube.get_video_by_url (lowerL url) with
    | none =>
      refine ⟨rfl, by simp [callResult, hres], ?_⟩
      intro d hcr
      simp [callResult, hres] at hcr
    | some t =>
      refine ⟨rfl, by simp [callResult, hres], ?_⟩
      intro d hcr
      simp only [callResult, hres, Option.map_some', Option.some.injEq] at hcr
      subst hcr
      rfl

/-- Witness for C7: a catalog-B URL leads to exactly one resolve call. -/
theorem c7_null_iff_client_null_witness :
    (svc0.verify_track_url (strL "https://soundcloud.com/a/b")).2
      = [ApiCall.soundcloudResolve (lowerL (strL "https://soundcloud.com/a/b"))] :=
  (c7_null_iff_client_null svc0 (strL "https://soundcloud.com/a/b")
    Platform.soundcloud _ (by decide) rfl).1

/-- Counterexample to claim C9: the first pattern of
`extract_video_id` is `(?:v=|\/)(...)`, not the query-parameter form
alone; on a short-link URL with none of the three claimed shapes
(`v=`, `embed/`, `v/`) the code still extracts the 11-character id
after the last `/`, while the claimed three-shape extraction yields
null. -/
theorem c9_first_pattern_counterexample :
    extract_video_id (strL "https://youtu.be/abcdefghijk") = some (strL "abcdefghijk")
    ∧ claimedExtractVideoId (strL "https://youtu.be/abcdefghijk") = none := by
  decide

/-- Claim C9 as amended: extraction tries the three patterns in order,
but the first pattern matches an 11-character id preceded by either
`v=` or any `/` (not only the query-parameter form); every `/embed/`
or `/v/` match contains a `/` right before the id, so the first
pattern subsumes the other two and `extract_video_id` always equals
the leftmost `v=`-or-`/` match — null exactly when that pattern finds
nothing. -/
theorem c9_first_pattern_subsumes (u : List Char) :
    extract_video_id u = scanFirst vEqOrSlashAt u := by
  cases h1 : scanFirst vEqOrSlashAt u with
  | some r =>
    rw [extract_video_id, h1]
  | none =>
    have h2 : scanFirst embedAt u = none := by
      cases h2 : scanFirst embedAt u with
      | none => rfl
      | some r =>
        obtain ⟨a, b, hab, hb⟩ := scanFirst_some_decomp _ _ _ h2
        obtain ⟨rest, hrest, hv, hr⟩ := embedAt_some _ _ hb
        subst hrest
        have hm : vEqOrSlashAt ('/' :: rest) = some (rest.take 11) := by
          simp [vEqOrSlashAt, hv]
        have hne := scanFirst_ne_none vEqOrSlashAt
          (a ++ ['e', 'm', 'b', 'e', 'd']) ('/' :: rest) (rest.take 11) hm
        rw [List.append_assoc] at hne
        rw [hab] at h1
        exact absurd h1 hne
    have h3 : scanFirst vSlashAt u = none := by
      cases h3 : scanFirst vSlashAt u with
      | none => rfl
      | some r =>
        obtain ⟨a, b, hab, hb⟩ := scanFirst_some_decomp _ _ _ h3
        obtain ⟨rest, hrest, hv, hr⟩ := vSlashAt_some _ _ hb
        subst hrest
        have hm : vEqOrSlashAt ('/' :: rest) = some (rest.take 11) := by
          simp [vEqOrSlashAt, hv]
        have hne := scanFirst_ne_none vEqOrSlashAt
          (a ++ ['v']) ('/' :: rest) (rest.take 11) hm
        rw [List.append_assoc] at hne
        rw [hab] at h1
        exact absurd h1 hne
    rw [extract_video_id, h1, h2, h3]

/-- Claim C10: whenever the lowercased URL contains `track/` followed
by at least one ASCII alphanumeric character, the extracted catalog-A
id is the maximal alphanumeric run right after the first such
occurrence; any length from 1 up is accepted, and that id is exactly
what `verify_spotify_url` hands to the detail lookup. -/
theorem c10_track_id_extraction (url pre post : List Char)
    (hu : lowerL url = pre ++ (trackLit ++ post))
    (hpost : alnumHead post = true)
    (hmin : ∀ i, i < pre.length →
      trackPrefixId ((pre ++ (trackLit ++ post)).drop i) = none) :
    searchTrackId (lowerL url) = some (post.takeWhile isAlnum)
    ∧ 1 ≤ (post.takeWhile isAlnum).length
    ∧ ∀ svc : TrackVerificationService,
        (svc.verify_spotify_url (lowerL url)).2
          = [ApiCall.spotifyDetails (post.takeWhile isAlnum)] := by
  have hmain := searchTrackId_first pre post hpost hmin
  rw [hu]
  refine ⟨hmain, ?_, ?_⟩
  · cases post with
    | nil => simp [alnumHead] at hpost
    | cons p ps =>
      simp only [alnumHead] at hpost
      simp [List.takeWhile_cons, hpost]
  · intro svc
    rw [TrackVerificationService.verify_spotify_url]
    rw [show searchTrackId (pre ++ (trackLit ++ post)) = some (post.takeWhile isAlnum)
      from hmain]

/-- Witness for C10: a two-character id is extracted (no 11-character
minimum) and stops at the first non-alphanumeric character. -/
theorem c10_track_id_extraction_witness :
    searchTrackId (lowerL (strL "HTTPS://X.Y/Track/A7?q=1"))
      = some ((strL "a7?q=1").takeWhile isAlnum)
    ∧ 1 ≤ ((strL "a7?q=1").takeWhile isAlnum).length :=
  have h := c10_track_id_extraction (strL "HTTPS://X.Y/Track/A7?q=1")
    (strL "https://x.y/") (strL "a7?q=1") (by decide) (by decide) (by decide)
  ⟨h.1, h.2.1⟩
